import Mathlib

/-!
Shallow embedding of `custom_components/humidifier_template/humidifier.py`
(the `TemplateHumidifier` entity of the `humidifier_template` integration).

The embedding covers the parts of the module that the verified properties
are about: the device state model held by the entity instance, the six
template-driven attribute-update callbacks (`_update_state`, `_update_mode`,
`_update_mode_list`, `_update_current_humidity`, `_update_target_humidity`,
`_update_action`), the restoration step of `async_added_to_hass`, and the
four command handlers (`async_turn_on`, `async_turn_off`,
`async_set_humidity`, `async_set_mode`).

Python dynamic values that can reach the callbacks are modelled by the
tagged union `RawValue`; Python exceptions that can escape a statement are
modelled by an `Option PyExc` result component (`none` = returned normally,
`some e` = the call raised `e` past its boundary).  In Home Assistant the
"unknown"/"unavailable" sentinels are literally the strings `"unknown"` and
`"unavailable"`, so the sentinel test `x not in (STATE_UNKNOWN,
STATE_UNAVAILABLE)` also fires on those plain strings; `isSentinel`
reproduces that.
-/

namespace HumidifierTemplate

/-- Raw evaluated template output as delivered to an update callback:
the unknown/unavailable sentinels, a `TemplateError` marker (`err`), a
boolean, a string, or a sequence of strings. -/
inductive RawValue where
  | unknown
  | unavailable
  | err
  | bool (b : Bool)
  | str (s : String)
  | list (xs : List String)
deriving DecidableEq

/-- The Python attribute `self._state` is not always a `bool`: the
constructor stores a bool, `_update_state` can store `None`, and the
restoration step stores the persisted state string verbatim. -/
inductive PowerState where
  | pyNone
  | bool (b : Bool)
  | str (s : String)
deriving DecidableEq

/-- `HumidifierAction` values used by the module, plus `unset` for the
base-class default (`_attr_action = None`) before any action update. -/
inductive HAction where
  | unset
  | off
  | humidifying
  | drying
  | idle
deriving DecidableEq

/-- `HumidifierDeviceClass` restricted to the two classes the module uses;
also models the config `type` option (`humidifier` / `dehumidifier`). -/
inductive DeviceClass where
  | humidifier
  | dehumidifier
deriving DecidableEq

/-- Python exceptions relevant to the module: `ValueError` (the only class
the handlers catch), `TypeError` (raised by `int(x)` / `x[0]` on
unsuitable types), `IndexError` (raised by `x[0]` on an empty sequence),
and `other` for arbitrary downstream errors such as a failing service
call. -/
inductive PyExc where
  | valueError
  | typeError
  | indexError
  | other (msg : String)
deriving DecidableEq

/-- Python truthiness of a `_state` value: `None` is falsy, a bool is
itself, a string is truthy iff non-empty. -/
def truthy : PowerState → Bool
  | .pyNone => false
  | .bool b => b
  | .str s => !s.isEmpty

/-- The test `value not in (STATE_UNKNOWN, STATE_UNAVAILABLE)` (negated):
the sentinels are the strings "unknown" / "unavailable", so a plain string
equal to one of them also counts. -/
def isSentinel : RawValue → Bool
  | .unknown => true
  | .unavailable => true
  | .str s => s == "unknown" || s == "unavailable"
  | _ => false

/-- Python `str.lower()` (ASCII case mapping; the claims only exercise
ASCII strings). -/
def pyLower (s : String) : String := ⟨s.data.map Char.toLower⟩

/-- ASCII whitespace stripped by Python `int(str)`. -/
def isPySpace (c : Char) : Bool := c = ' ' || c = '\t' || c = '\n' || c = '\r'

/-- Value of a run of ASCII decimal digits. -/
def digitsToInt (cs : List Char) : Int :=
  cs.foldl (fun acc c => acc * 10 + ((c.toNat : Int) - 48)) 0

/-- Python `int(str)` digit-string parse: optional surrounding whitespace,
optional sign, then a non-empty run of ASCII decimal digits.  (Numeric
literal underscores and non-ASCII digits accepted by CPython are not
modelled; no value in this development uses them.) -/
def parseIntStr (s : String) : Option Int :=
  let cs := ((s.data.dropWhile isPySpace).reverse.dropWhile isPySpace).reverse
  match cs with
  | [] => none
  | c :: rest =>
      let (sign, digits) :=
        if c = '-' then ((-1 : Int), rest)
        else if c = '+' then ((1 : Int), rest)
        else ((1 : Int), c :: rest)
      if digits.isEmpty then none
      else if digits.all Char.isDigit then some (sign * digitsToInt digits)
      else none

/-- Python `int(x)` over the raw-value domain: bools convert to 0/1,
strings parse or raise `ValueError`, and non-numeric objects
(`TemplateError` instances, lists) raise `TypeError`.  The sentinel
constructors stand for the strings "unknown"/"unavailable", which fail the
digit parse. -/
def pyInt : RawValue → Except PyExc Int
  | .bool b => .ok (if b then 1 else 0)
  | .str s =>
      match parseIntStr s with
      | some n => .ok n
      | none => .error .valueError
  | .err => .error .typeError
  | .list _ => .error .typeError
  | .unknown => .error .valueError
  | .unavailable => .error .valueError

/-- Substring search over character lists. -/
def containsSub (needle : List Char) : List Char → Bool
  | [] => needle.isEmpty
  | c :: rest => needle.isPrefixOf (c :: rest) || containsSub needle rest

/-- Python `needle in haystack` substring test (for `"fan" in self._switch_id`). -/
def pyContains (haystack needle : String) : Bool :=
  containsSub needle.data haystack.data

/-- Python `t[0]` on a non-empty string: its first character as a
one-character string (empty input gives "" here; callers guard it). -/
def pyFirstChar (t : String) : String :=
  match t.data with
  | [] => ""
  | c :: _ => ⟨[c]⟩

/-- The mutable state of one `TemplateHumidifier` instance (the fields the
verified properties touch).  `mode` and `availableModes` are typed as raw
values because `_update_mode` / `_update_mode_list` copy the template
output into them verbatim, whatever its type.  `targetTemp` /
`currentTemp` are the dead fields `self._target_temp` /
`self._current_temp` written only by the restoration step. -/
structure DeviceState where
  state : PowerState
  mode : Option RawValue
  availableModes : Option RawValue
  supportedModes : Bool
  currentHumidity : Int
  targetHumidity : Int
  action : HAction
  deviceClass : DeviceClass
  available : Bool
  targetTemp : Option Int
  currentTemp : Option Int
deriving DecidableEq

/-- The configuration options the modelled code paths read (after schema
validation, so `type` and the mode list carry their schema defaults). -/
structure Config where
  cfgType : DeviceClass
  modeList : List String
  hasStateTemplate : Bool
  hasModeTemplate : Bool
  hasModeListTemplate : Bool
  hasCurrentHumidityTemplate : Bool
  hasTargetHumidityTemplate : Bool
  hasActionTemplate : Bool
  switchId : Option String
  hasSetModeScript : Bool
  hasSetTargetHumidityScript : Bool
  minHumidity : Int
  maxHumidity : Int
deriving DecidableEq

/-- `TemplateHumidifier.__init__`: `_state = (DEFAULT_SWITCH_STATE ==
STATE_ON)` i.e. `False`; humidities default to `DEFAULT_HUMIDITY = 50`;
device class is dehumidifier unless the config type is humidifier; if the
configured mode list is truthy (non-empty) the MODES feature is set,
`_attr_available_modes` is the configured list and `_attr_mode` is
`MODE_NORMAL` ("normal"). -/
def initialState (cfg : Config) : DeviceState :=
  { state := .bool false
    mode := if cfg.modeList.isEmpty then none else some (.str "normal")
    availableModes := if cfg.modeList.isEmpty then none else some (.list cfg.modeList)
    supportedModes := !cfg.modeList.isEmpty
    currentHumidity := 50
    targetHumidity := 50
    action := .unset
    deviceClass := cfg.cfgType
    available := true
    targetTemp := none
    currentTemp := none }

/-- `_update_state(state)`: first `self._state = False`; then, unless the
input is a sentinel, a `TemplateError` marker yields `None`, a bool is
copied verbatim, a string yields `s.lower() in ("true", "on")`, and any
other type falls through to the trailing `self._state = False`.  No
statement in the body can raise. -/
def update_state (s : DeviceState) (v : RawValue) : DeviceState × Option PyExc :=
  let s0 : DeviceState := { s with state := .bool false }
  if isSentinel v then (s0, none)
  else
    match v with
    | .err => ({ s0 with state := .pyNone }, none)
    | .bool b => ({ s0 with state := .bool b }, none)
    | .str t => ({ s0 with state := .bool (pyLower t == "true" || pyLower t == "on") }, none)
    | _ => ({ s0 with state := .bool false }, none)

/-- `_update_mode(mode)`: unless the input is a sentinel, copy it verbatim
into `_attr_mode`.  A plain assignment cannot raise. -/
def update_mode (s : DeviceState) (v : RawValue) : DeviceState × Option PyExc :=
  if isSentinel v then (s, none)
  else ({ s with mode := some v }, none)

/-- `_update_mode_list(mode_list)`: unless the input is a sentinel, set
the MODES feature flag, copy the value verbatim into
`_attr_available_modes`, then set `_attr_mode = mode_list[0]`.  Only
`ValueError` is caught, so `mode_list[0]` raising `IndexError` (empty list
or empty string) or `TypeError` (bool or `TemplateError` marker, which are
not subscriptable) escapes the handler — with the first two assignments
already performed.  Indexing a non-empty string yields its first character
as a one-character string. -/
def update_mode_list (s : DeviceState) (v : RawValue) : DeviceState × Option PyExc :=
  if isSentinel v then (s, none)
  else
    let s1 : DeviceState := { s with supportedModes := true, availableModes := some v }
    match v with
    | .list [] => (s1, some .indexError)
    | .list (m :: _) => ({ s1 with mode := some (.str m) }, none)
    | .str t =>
        if t.isEmpty then (s1, some .indexError)
        else ({ s1 with mode := some (.str (pyFirstChar t)) }, none)
    | _ => (s1, some .typeError)

/-- `_update_current_humidity(humidity)`: unless the input is a sentinel,
`self._current_humidity = int(humidity)`; `ValueError` is caught and
logged (value unchanged), while `TypeError` from `int()` on a
`TemplateError` marker or a list escapes the handler. -/
def update_current_humidity (s : DeviceState) (v : RawValue) : DeviceState × Option PyExc :=
  if isSentinel v then (s, none)
  else
    match pyInt v with
    | .ok n => ({ s with currentHumidity := n }, none)
    | .error .valueError => (s, none)
    | .error e => (s, some e)

/-- `_update_target_humidity(humidity)`: same shape as
`_update_current_humidity` but writing `self._target_humidity`. -/
def update_target_humidity (s : DeviceState) (v : RawValue) : DeviceState × Option PyExc :=
  if isSentinel v then (s, none)
  else
    match pyInt v with
    | .ok n => ({ s with targetHumidity := n }, none)
    | .error .valueError => (s, none)
    | .error e => (s, some e)

/-- `_update_action(action)`: unless the input is a sentinel, derive the
action from the truthiness of `self._state`, the configured type, and
whether the raw input equals the string "fan".  The source writes
`HUMIDIFYING`, then overwrites with `DRYING` when the configured type is
dehumidifier, then overwrites with `IDLE` when the input is "fan"; no
statement can raise. -/
def update_action (cfg : Config) (s : DeviceState) (v : RawValue) : DeviceState × Option PyExc :=
  if isSentinel v then (s, none)
  else if truthy s.state = false then ({ s with action := .off }, none)
  else
    let a := HAction.humidifying
    let a := if cfg.cfgType = .dehumidifier then HAction.drying else a
    let a := if v = .str "fan" then HAction.idle else a
    ({ s with action := a }, none)

/-- A persisted snapshot returned by `async_get_last_state`: the state
string and the attributes the restoration step reads ("mode", "humidity",
"current_humidity").  `none` models an absent attribute; the humidity
attributes are the integers the entity itself persists. -/
structure Snapshot where
  state : String
  attrMode : Option String
  attrHumidity : Option Int
  attrCurrentHumidity : Option Int
deriving DecidableEq

/-- The restoration block of `async_added_to_hass`: when a previous state
exists, `self._state = previous_state.state` (the string, verbatim); then
each walrus-guarded assignment runs only when the fetched value is truthy
(for the defaulted lookups, an absent attribute yields the truthy defaults
"normal" / 50).  Note the persisted "humidity" attribute is written to the
dead field `self._target_temp`, not to `self._target_humidity`, while
"current_humidity" is read twice, into `self._current_temp` and then into
`self._current_humidity`. -/
def restore (s : DeviceState) (prev : Option Snapshot) : DeviceState :=
  match prev with
  | none => s
  | some p =>
    let s1 : DeviceState := { s with state := .str p.state }
    let m := p.attrMode.getD "normal"
    let s2 := if m.isEmpty then s1 else { s1 with mode := some (.str m) }
    let h := p.attrHumidity.getD 50
    let s3 := if h = 0 then s2 else { s2 with targetTemp := some h }
    let s4 :=
      match p.attrCurrentHumidity with
      | some c => if c = 0 then s3 else { s3 with currentTemp := some c }
      | none => s3
    let s5 :=
      match p.attrCurrentHumidity with
      | some c => if c = 0 then s4 else { s4 with currentHumidity := c }
      | none => s4
    s5

/-- `is_on` property: returns `self._state` verbatim, whatever it holds. -/
def is_on (s : DeviceState) : PowerState := s.state

/-- Externally visible side effects a command handler performs, in program
order: a `hass.services.async_call`, an awaited `Script.async_run`, or
`self.async_write_ha_state()` (the state-publish step). -/
inductive Effect where
  | serviceCall (domain service entityId : String)
  | runScript (script : String)
  | publish
deriving DecidableEq

/-- `async_turn_on`: `self._state = True` first; then, when a switch id is
configured, await a turn_on service call in the fan domain when the id
contains the substring "fan", else in the switch domain.  `callExc` is the
outcome of that awaited call; no try/except surrounds it in the source, so
it is returned unchanged (and only when a call is actually made).  There
is no `async_write_ha_state` call in this method. -/
def async_turn_on_run (cfg : Config) (s : DeviceState) (callExc : Option PyExc) :
    DeviceState × List Effect × Option PyExc :=
  let s1 : DeviceState := { s with state := .bool true }
  match cfg.switchId with
  | none => (s1, [], none)
  | some sid =>
      let dom := if pyContains sid "fan" then "fan" else "switch"
      (s1, [Effect.serviceCall dom "turn_on" sid], callExc)

/-- `async_turn_off`: identical to `async_turn_on` with `self._state =
False` and the turn_off service. -/
def async_turn_off_run (cfg : Config) (s : DeviceState) (callExc : Option PyExc) :
    DeviceState × List Effect × Option PyExc :=
  let s1 : DeviceState := { s with state := .bool false }
  match cfg.switchId with
  | none => (s1, [], none)
  | some sid =>
      let dom := if pyContains sid "fan" then "fan" else "switch"
      (s1, [Effect.serviceCall dom "turn_off" sid], callExc)

/-- `async_set_humidity(humidity)`: `self._target_humidity = humidity`,
then await the set-target-humidity script when one is configured.  No
`async_write_ha_state` call. -/
def async_set_humidity (cfg : Config) (s : DeviceState) (humidity : Int) :
    DeviceState × List Effect :=
  let s1 : DeviceState := { s with targetHumidity := humidity }
  if cfg.hasSetTargetHumidityScript then (s1, [Effect.runScript "set_target_humidity"])
  else (s1, [])

/-- `async_set_mode(mode)`: when no mode template is configured,
`self._attr_mode = mode` and `self.async_write_ha_state()`; then,
independently, await the set-mode script when one is configured. -/
def async_set_mode (cfg : Config) (s : DeviceState) (mode : String) :
    DeviceState × List Effect :=
  let (s1, effs1) :=
    if cfg.hasModeTemplate then (s, ([] : List Effect))
    else ({ s with mode := some (.str mode) }, [Effect.publish])
  if cfg.hasSetModeScript then (s1, effs1 ++ [Effect.runScript "set_mode"])
  else (s1, effs1)

/-! ### Derived closed forms of the handlers

Each handler's state effect is a single-field (or, for the mode-list
handler, three-field) record update; the functions below give those field
updates in closed form and the `..._fst` lemmas prove the handlers equal
to them.  They exist so that commutation properties can be settled by
rewriting both compositions to nested record updates. -/

/-- Closed form of the power-state value written by `_update_state`. -/
def stateFn (v : RawValue) : PowerState :=
  if isSentinel v then .bool false
  else
    match v with
    | .err => .pyNone
    | .bool b => .bool b
    | .str t => .bool (pyLower t == "true" || pyLower t == "on")
    | _ => .bool false

/-- Closed form of the mode value after `_update_mode`. -/
def modeFn (old : Option RawValue) (v : RawValue) : Option RawValue :=
  if isSentinel v then old else some v

/-- Closed form of the MODES feature flag after `_update_mode_list`. -/
def mlSuppFn (old : Bool) (v : RawValue) : Bool :=
  if isSentinel v then old else true

/-- Closed form of the available-modes value after `_update_mode_list`. -/
def mlAvailFn (old : Option RawValue) (v : RawValue) : Option RawValue :=
  if isSentinel v then old else some v

/-- Closed form of the mode value after `_update_mode_list` (unchanged
when `mode_list[0]` raises before the assignment). -/
def mlModeFn (old : Option RawValue) (v : RawValue) : Option RawValue :=
  if isSentinel v then old
  else
    match v with
    | .list (m :: _) => some (.str m)
    | .str t => if t.isEmpty then old else some (.str (pyFirstChar t))
    | _ => old

/-- Closed form of the humidity value after `_update_current_humidity` /
`_update_target_humidity` (unchanged whenever `int()` raises). -/
def humFn (old : Int) (v : RawValue) : Int :=
  if isSentinel v then old
  else
    match pyInt v with
    | .ok n => n
    | .error _ => old

/-- Closed form of the action value after `_update_action`. -/
def actFn (cfg : Config) (st : PowerState) (old : HAction) (v : RawValue) : HAction :=
  if isSentinel v then old
  else if truthy st = false then .off
  else if v = .str "fan" then .idle
  else if cfg.cfgType = .dehumidifier then .drying
  else .humidifying

theorem update_state_fst (s : DeviceState) (v : RawValue) :
    (update_state s v).1 = { s with state := stateFn v } := by
  by_cases h : isSentinel v = true
  · cases v <;> simp [update_state, stateFn, h]
  · cases v <;> simp [update_state, stateFn, h]

theorem update_mode_fst (s : DeviceState) (v : RawValue) :
    (update_mode s v).1 = { s with mode := modeFn s.mode v } := by
  unfold update_mode modeFn
  split <;> rfl

theorem update_mode_list_fst (s : DeviceState) (v : RawValue) :
    (update_mode_list s v).1 =
      { s with supportedModes := mlSuppFn s.supportedModes v,
               availableModes := mlAvailFn s.availableModes v,
               mode := mlModeFn s.mode v } := by
  by_cases h : isSentinel v = true
  · simp [update_mode_list, mlSuppFn, mlAvailFn, mlModeFn, h]
  · cases v with
    | list xs =>
        cases xs <;> simp [update_mode_list, mlSuppFn, mlAvailFn, mlModeFn, h]
    | str t =>
        by_cases he : t.isEmpty = true <;>
          simp [update_mode_list, mlSuppFn, mlAvailFn, mlModeFn, h, he]
    | unknown => simp [isSentinel] at h
    | unavailable => simp [isSentinel] at h
    | err => simp [update_mode_list, mlSuppFn, mlAvailFn, mlModeFn, h]
    | bool b => simp [update_mode_list, mlSuppFn, mlAvailFn, mlModeFn, h]

theorem update_current_humidity_fst (s : DeviceState) (v : RawValue) :
    (update_current_humidity s v).1 = { s with currentHumidity := humFn s.currentHumidity v } := by
  by_cases h : isSentinel v = true
  · simp [update_current_humidity, humFn, h]
  · cases hp : pyInt v with
    | ok n => simp [update_current_humidity, humFn, h, hp]
    | error e => cases e <;> simp [update_current_humidity, humFn, h, hp]

theorem update_target_humidity_fst (s : DeviceState) (v : RawValue) :
    (update_target_humidity s v).1 = { s with targetHumidity := humFn s.targetHumidity v } := by
  by_cases h : isSentinel v = true
  · simp [update_target_humidity, humFn, h]
  · cases hp : pyInt v with
    | ok n => simp [update_target_humidity, humFn, h, hp]
    | error e => cases e <;> simp [update_target_humidity, humFn, h, hp]

theorem update_action_fst (cfg : Config) (s : DeviceState) (v : RawValue) :
    (update_action cfg s v).1 = { s with action := actFn cfg s.state s.action v } := by
  by_cases h : isSentinel v = true
  · simp [update_action, actFn, h]
  · by_cases ht : truthy s.state = false
    · simp [update_action, actFn, h, ht]
    · by_cases hf : v = RawValue.str "fan"
      · subst hf
        simp [update_action, actFn, h, ht]
      · by_cases hd : cfg.cfgType = DeviceClass.dehumidifier <;>
          simp [update_action, actFn, h, ht, hf, hd]

/-! ### Handler identifiers and pairwise commutation

`applyHandler` applies one named handler's state mutation.  Each callback
is a separate subscription of the template machinery, so a later callback
still runs even when an earlier one raised into the event loop; composing
the state components is therefore the right model of "apply both, in some
order". -/

/-- One identifier per attribute-update callback. -/
inductive HandlerId where
  | hstate
  | hmode
  | hmodeList
  | hcurrent
  | htarget
  | haction
deriving DecidableEq

/-- Apply the named handler's state mutation for raw input `v`. -/
def applyHandler (cfg : Config) (h : HandlerId) (v : RawValue) (s : DeviceState) : DeviceState :=
  match h with
  | .hstate => (update_state s v).1
  | .hmode => (update_mode s v).1
  | .hmodeList => (update_mode_list s v).1
  | .hcurrent => (update_current_humidity s v).1
  | .htarget => (update_target_humidity s v).1
  | .haction => (update_action cfg s v).1

/-- The two handler pairs that genuinely interfere: `_update_mode` and
`_update_mode_list` both write `_attr_mode`, and `_update_action` reads
`_state`, which `_update_state` writes. -/
def interferingPair : HandlerId → HandlerId → Bool
  | .hmode, .hmodeList => true
  | .hmodeList, .hmode => true
  | .hstate, .haction => true
  | .haction, .hstate => true
  | _, _ => false

theorem comm_state_mode (v1 v2 : RawValue) (s : DeviceState) :
    (update_mode (update_state s v1).1 v2).1 = (update_state (update_mode s v2).1 v1).1 := by
  simp only [update_state_fst, update_mode_fst]

theorem comm_state_modeList (v1 v2 : RawValue) (s : DeviceState) :
    (update_mode_list (update_state s v1).1 v2).1
      = (update_state (update_mode_list s v2).1 v1).1 := by
  simp only [update_state_fst, update_mode_list_fst]

theorem comm_state_current (v1 v2 : RawValue) (s : DeviceState) :
    (update_current_humidity (update_state s v1).1 v2).1
      = (update_state (update_current_humidity s v2).1 v1).1 := by
  simp only [update_state_fst, update_current_humidity_fst]

theorem comm_state_target (v1 v2 : RawValue) (s : DeviceState) :
    (update_target_humidity (update_state s v1).1 v2).1
      = (update_state (update_target_humidity s v2).1 v1).1 := by
  simp only [update_state_fst, update_target_humidity_fst]

theorem comm_mode_current (v1 v2 : RawValue) (s : DeviceState) :
    (update_current_humidity (update_mode s v1).1 v2).1
      = (update_mode (update_current_humidity s v2).1 v1).1 := by
  simp only [update_mode_fst, update_current_humidity_fst]

theorem comm_mode_target (v1 v2 : RawValue) (s : DeviceState) :
    (update_target_humidity (update_mode s v1).1 v2).1
      = (update_mode (update_target_humidity s v2).1 v1).1 := by
  simp only [update_mode_fst, update_target_humidity_fst]

theorem comm_mode_action (cfg : Config) (v1 v2 : RawValue) (s : DeviceState) :
    (update_action cfg (update_mode s v1).1 v2).1
      = (update_mode (update_action cfg s v2).1 v1).1 := by
  simp only [update_mode_fst, update_action_fst]

theorem comm_modeList_current (v1 v2 : RawValue) (s : DeviceState) :
    (update_current_humidity (update_mode_list s v1).1 v2).1
      = (update_mode_list (update_current_humidity s v2).1 v1).1 := by
  simp only [update_mode_list_fst, update_current_humidity_fst]

theorem comm_modeList_target (v1 v2 : RawValue) (s : DeviceState) :
    (update_target_humidity (update_mode_list s v1).1 v2).1
      = (update_mode_list (update_target_humidity s v2).1 v1).1 := by
  simp only [update_mode_list_fst, update_target_humidity_fst]

theorem comm_modeList_action (cfg : Config) (v1 v2 : RawValue) (s : DeviceState) :
    (update_action cfg (update_mode_list s v1).1 v2).1
      = (update_mode_list (update_action cfg s v2).1 v1).1 := by
  simp only [update_mode_list_fst, update_action_fst]

theorem comm_current_target (v1 v2 : RawValue) (s : DeviceState) :
    (update_target_humidity (update_current_humidity s v1).1 v2).1
      = (update_current_humidity (update_target_humidity s v2).1 v1).1 := by
  simp only [update_current_humidity_fst, update_target_humidity_fst]

theorem comm_current_action (cfg : Config) (v1 v2 : RawValue) (s : DeviceState) :
    (update_action cfg (update_current_humidity s v1).1 v2).1
      = (update_current_humidity (update_action cfg s v2).1 v1).1 := by
  simp only [update_current_humidity_fst, update_action_fst]

theorem comm_target_action (cfg : Config) (v1 v2 : RawValue) (s : DeviceState) :
    (update_action cfg (update_target_humidity s v1).1 v2).1
      = (update_target_humidity (update_action cfg s v2).1 v1).1 := by
  simp only [update_target_humidity_fst, update_action_fst]

/-! ### Spec-level predicates and concrete fixtures -/

/-- The spec invariant "`mode` must be a member of `available_modes` when
modes are supported", as a decidable check on the device state. -/
def modeMemberInv (s : DeviceState) : Bool :=
  if s.supportedModes then
    match s.mode, s.availableModes with
    | some (.str m), some (.list xs) => xs.contains m
    | _, _ => false
  else true

/-- A representative validated configuration: dehumidifier type, default
mode list, a mode-list template but no mode template, both scripts, and a
switch-domain backing entity. -/
def cfg0 : Config :=
  { cfgType := .dehumidifier
    modeList := ["auto", "away", "normal"]
    hasStateTemplate := true
    hasModeTemplate := false
    hasModeListTemplate := true
    hasCurrentHumidityTemplate := true
    hasTargetHumidityTemplate := true
    hasActionTemplate := true
    switchId := some "switch.dryer"
    hasSetModeScript := true
    hasSetTargetHumidityScript := true
    minHumidity := 40
    maxHumidity := 80 }

/-- A persisted snapshot whose attributes carry `target_humidity = 65`
(the humidifier entity persists its target under the "humidity" key). -/
def snap65 : Snapshot :=
  { state := "off", attrMode := none, attrHumidity := some 65, attrCurrentHumidity := none }

/-- Device state that is off with a stale non-OFF action, for exercising
the action handler on sentinel input. -/
def dsOffDrying : DeviceState :=
  { initialState cfg0 with action := .drying }

/-- Device state whose power state is on. -/
def dsOn : DeviceState :=
  { initialState cfg0 with state := .bool true }

/-! ### Auxiliary lemmas on the handlers' exception components -/

theorem update_state_snd (s : DeviceState) (v : RawValue) : (update_state s v).2 = none := by
  by_cases h : isSentinel v = true
  · simp [update_state, h]
  · cases v <;> simp [update_state, h]

theorem update_mode_snd (s : DeviceState) (v : RawValue) : (update_mode s v).2 = none := by
  by_cases h : isSentinel v = true <;> simp [update_mode, h]

theorem update_action_snd (cfg : Config) (s : DeviceState) (v : RawValue) :
    (update_action cfg s v).2 = none := by
  by_cases h : isSentinel v = true
  · simp [update_action, h]
  · by_cases ht : truthy s.state = false <;> simp [update_action, h, ht]

theorem update_current_humidity_snd_str_none (s : DeviceState) (t : String)
    (h : isSentinel (RawValue.str t) = false) :
    (update_current_humidity s (RawValue.str t)).2 = none := by
  unfold update_current_humidity
  rw [if_neg (by simp [h])]
  unfold pyInt
  cases hp : parseIntStr t <;> simp [hp]

theorem update_current_humidity_snd_none_iff (s : DeviceState) (v : RawValue) :
    (update_current_humidity s v).2 = none ↔
      (isSentinel v = true ∨ (v ≠ .err ∧ ∀ xs, v ≠ RawValue.list xs)) := by
  cases v with
  | unknown =>
      have h : (update_current_humidity s .unknown).2 = none := rfl
      simp [h, isSentinel]
  | unavailable =>
      have h : (update_current_humidity s .unavailable).2 = none := rfl
      simp [h, isSentinel]
  | bool b =>
      have h : (update_current_humidity s (.bool b)).2 = none := rfl
      simp [h, isSentinel]
  | err =>
      have h : (update_current_humidity s .err).2 = some PyExc.typeError := rfl
      rw [h]
      constructor
      · intro hc
        cases hc
      · rintro (hs | ⟨hne, -⟩)
        · cases hs
        · exact absurd rfl hne
  | list xs =>
      have h : (update_current_humidity s (.list xs)).2 = some PyExc.typeError := rfl
      rw [h]
      constructor
      · intro hc
        cases hc
      · rintro (hs | ⟨-, hall⟩)
        · cases hs
        · exact absurd rfl (hall xs)
  | str t =>
      by_cases h : isSentinel (RawValue.str t) = true
      · have hn : (update_current_humidity s (RawValue.str t)).2 = none := by
          unfold update_current_humidity
          rw [if_pos (by simp [h])]
        simp [hn, h]
      · have hn := update_current_humidity_snd_str_none s t (by simpa using h)
        simp [hn, h]

theorem update_target_humidity_snd_str_none (s : DeviceState) (t : String)
    (h : isSentinel (RawValue.str t) = false) :
    (update_target_humidity s (RawValue.str t)).2 = none := by
  unfold update_target_humidity
  rw [if_neg (by simp [h])]
  unfold pyInt
  cases hp : parseIntStr t <;> simp [hp]

theorem update_target_humidity_snd_none_iff (s : DeviceState) (v : RawValue) :
    (update_target_humidity s v).2 = none ↔
      (isSentinel v = true ∨ (v ≠ .err ∧ ∀ xs, v ≠ RawValue.list xs)) := by
  cases v with
  | unknown =>
      have h : (update_target_humidity s .unknown).2 = none := rfl
      simp [h, isSentinel]
  | unavailable =>
      have h : (update_target_humidity s .unavailable).2 = none := rfl
      simp [h, isSentinel]
  | bool b =>
      have h : (update_target_humidity s (.bool b)).2 = none := rfl
      simp [h, isSentinel]
  | err =>
      have h : (update_target_humidity s .err).2 = some PyExc.typeError := rfl
      rw [h]
      constructor
      · intro hc
        cases hc
      · rintro (hs | ⟨hne, -⟩)
        · cases hs
        · exact absurd rfl hne
  | list xs =>
      have h : (update_target_humidity s (.list xs)).2 = some PyExc.typeError := rfl
      rw [h]
      constructor
      · intro hc
        cases hc
      · rintro (hs | ⟨-, hall⟩)
        · cases hs
        · exact absurd rfl (hall xs)
  | str t =>
      by_cases h : isSentinel (RawValue.str t) = true
      · have hn : (update_target_humidity s (RawValue.str t)).2 = none := by
          unfold update_target_humidity
          rw [if_pos (by simp [h])]
        simp [hn, h]
      · have hn := update_target_humidity_snd_str_none s t (by simpa using h)
        simp [hn, h]

theorem update_mode_list_snd_none_iff (s : DeviceState) (v : RawValue) :
    (update_mode_list s v).2 = none ↔
      (isSentinel v = true ∨ (∃ x xs, v = RawValue.list (x :: xs))
        ∨ (∃ t, v = RawValue.str t ∧ t.isEmpty = false)) := by
  cases v with
  | unknown => simp [update_mode_list, isSentinel]
  | unavailable => simp [update_mode_list, isSentinel]
  | bool b => simp [update_mode_list, isSentinel]
  | err => simp [update_mode_list, isSentinel]
  | list xs => cases xs <;> simp [update_mode_list, isSentinel]
  | str t =>
      by_cases h : isSentinel (RawValue.str t) = true
      · simp [update_mode_list, h]
      · cases he : t.isEmpty <;> simp [update_mode_list, h, he]

theorem humidity_valueError_unchanged (s : DeviceState) (v : RawValue)
    (h1 : isSentinel v = false) (h2 : pyInt v = .error .valueError) :
    update_current_humidity s v = (s, none) ∧ update_target_humidity s v = (s, none) := by
  simp [update_current_humidity, update_target_humidity, h1, h2]

theorem restore_state_eq (s : DeviceState) (p : Snapshot) :
    (restore s (some p)).state = .str p.state := by
  simp only [restore]
  repeat' split
  all_goals rfl

/-! ### Claim theorems -/

/-- C1: restoration precedence.  The claim says a persisted snapshot with
`target_humidity = 65` in its attributes yields `target_humidity = 65`
after restoration; the code instead writes the persisted value into the
dead field `_target_temp` and leaves `_target_humidity` at its
constructor default 50.  The second half of the claim does hold: once the
target-humidity template fires with the string "70", the target becomes
70.  This theorem evaluates the code at the failing input. -/
theorem C1_restoration_drops_target_humidity :
    (restore (initialState cfg0) (some snap65)).targetHumidity = 50
  ∧ (restore (initialState cfg0) (some snap65)).targetTemp = some 65
  ∧ (update_target_humidity (restore (initialState cfg0) (some snap65))
        (.str "70")).1.targetHumidity = 70 := by
  refine ⟨rfl, rfl, rfl⟩

/-- C2 counterexample: invoking the mode-list handler with an empty list
raises `IndexError` past the handler boundary (`mode_list[0]` raises and
only `ValueError` is caught), refuting "every attribute-update handler
is total ... and never raises past its boundary". -/
theorem C2_mode_list_empty_raises :
    (update_mode_list (initialState cfg0) (.list [])).2 = some PyExc.indexError := rfl

/-- C2 (amended): the state, mode and action handlers are total and never
raise; the humidity handlers return normally exactly on sentinel, boolean
and string inputs (a `TypeError` from `int()` escapes on the error marker
and on sequences), with `ValueError` conversion failures caught and the
prior value left unchanged; the mode-list handler returns normally exactly
on sentinel inputs, non-empty lists and non-empty strings (an
`IndexError`/`TypeError` escapes otherwise, because only `ValueError` is
caught), and even then the prior `mode` survives an empty-list call. -/
theorem C2_handler_totality_amended (cfg : Config) (s : DeviceState) (v : RawValue) :
    ((update_state s v).2 = none ∧ (update_mode s v).2 = none
        ∧ (update_action cfg s v).2 = none)
  ∧ ((update_current_humidity s v).2 = none ↔
        (isSentinel v = true ∨ (v ≠ .err ∧ ∀ xs, v ≠ RawValue.list xs)))
  ∧ ((update_target_humidity s v).2 = none ↔
        (isSentinel v = true ∨ (v ≠ .err ∧ ∀ xs, v ≠ RawValue.list xs)))
  ∧ ((update_mode_list s v).2 = none ↔
        (isSentinel v = true ∨ (∃ x xs, v = RawValue.list (x :: xs))
          ∨ (∃ t, v = RawValue.str t ∧ t.isEmpty = false)))
  ∧ (isSentinel v = false → pyInt v = .error .valueError →
        update_current_humidity s v = (s, none) ∧ update_target_humidity s v = (s, none))
  ∧ ((update_mode_list s (.list [])).1.mode = s.mode) := by
  refine ⟨⟨update_state_snd s v, update_mode_snd s v, update_action_snd cfg s v⟩,
    update_current_humidity_snd_none_iff s v, update_target_humidity_snd_none_iff s v,
    update_mode_list_snd_none_iff s v, ?_, ?_⟩
  · intro h1 h2
    exact humidity_valueError_unchanged s v h1 h2
  · simp [update_mode_list_fst, mlModeFn, isSentinel]

/-- C2 witness: a non-numeric string is a caught conversion failure that
leaves the whole state unchanged with no exception. -/
theorem C2_handler_totality_amended_witness :
    update_target_humidity (initialState cfg0) (.str "abc") = (initialState cfg0, none) :=
  ((C2_handler_totality_amended cfg0 (initialState cfg0) (.str "abc")).2.2.2.2.1
    rfl rfl).2

/-- C3: the state handler copies booleans verbatim, maps a non-sentinel
string to `True` iff its lower-casing is "true" or "on" (else `False`),
and forces the power state to `False` on either sentinel regardless of
the previous value. -/
theorem C3_state_handler_mapping (s : DeviceState) (b : Bool) (t : String)
    (h1 : t ≠ "unknown") (h2 : t ≠ "unavailable") :
    ((update_state s (.bool b)).1.state = .bool b)
  ∧ ((update_state s (.str t)).1.state = .bool true ↔
        (pyLower t = "true" ∨ pyLower t = "on"))
  ∧ ((update_state s (.str t)).1.state = .bool false ↔
        ¬(pyLower t = "true" ∨ pyLower t = "on"))
  ∧ ((update_state s .unknown).1.state = .bool false)
  ∧ ((update_state s .unavailable).1.state = .bool false)
  ∧ (∀ u : String, (u = "unknown" ∨ u = "unavailable") →
        (update_state s (.str u)).1.state = .bool false) := by
  have hs : isSentinel (RawValue.str t) = false := by
    simp [isSentinel, h1, h2]
  refine ⟨?_, ?_, ?_, rfl, rfl, ?_⟩
  · simp [update_state_fst, stateFn, isSentinel]
  · simp [update_state_fst, stateFn, hs]
  · simp [update_state_fst, stateFn, hs]
  · rintro u (rfl | rfl) <;> rfl

/-- C3 witness: the string "On" turns the power state on. -/
theorem C3_state_handler_mapping_witness :
    (update_state (initialState cfg0) (.str "On")).1.state = .bool true :=
  ((C3_state_handler_mapping (initialState cfg0) true "On"
      (by decide) (by decide)).2.1).mpr (Or.inr (by decide))

/-- C4 counterexample: the claim quantifies over any raw action input,
but on a sentinel input the handler is a no-op, so with the power state
off and a stale `drying` action the result is not `OFF`. -/
theorem C4_sentinel_input_not_off :
    truthy dsOffDrying.state = false
  ∧ (update_action cfg0 dsOffDrying (.str "unknown")).1.action = HAction.drying
  ∧ HAction.drying ≠ HAction.off := by
  refine ⟨rfl, rfl, by decide⟩

/-- C4 (amended): for any non-sentinel raw action input, if the power
state is falsy the handler yields `OFF` regardless of device class; if it
is truthy and the class is dehumidifier, input "fan" yields `IDLE` and any
other input yields `DRYING`; if it is truthy and the class is humidifier,
any input other than "fan" yields `HUMIDIFYING`. -/
theorem C4_action_derivation (cfg : Config) (s : DeviceState) (v : RawValue)
    (hv : isSentinel v = false) :
    (truthy s.state = false → (update_action cfg s v).1.action = .off)
  ∧ (truthy s.state = true → cfg.cfgType = .dehumidifier → v = .str "fan" →
        (update_action cfg s v).1.action = .idle)
  ∧ (truthy s.state = true → cfg.cfgType = .dehumidifier → v ≠ .str "fan" →
        (update_action cfg s v).1.action = .drying)
  ∧ (truthy s.state = true → cfg.cfgType = .humidifier → v ≠ .str "fan" →
        (update_action cfg s v).1.action = .humidifying) := by
  refine ⟨?_, ?_, ?_, ?_⟩
  · intro ht
    simp [update_action_fst, actFn, hv, ht]
  · intro ht hd hf
    subst hf
    simp [update_action_fst, actFn, hv, ht, hd]
  · intro ht hd hf
    simp [update_action_fst, actFn, hv, ht, hd, hf]
  · intro ht hd hf
    simp [update_action_fst, actFn, hv, ht, hd, hf]

/-- C4 witness: with the device on and dehumidifier class, the input
"fan" yields `IDLE`. -/
theorem C4_action_derivation_witness :
    (update_action cfg0 dsOn (.str "fan")).1.action = HAction.idle :=
  (C4_action_derivation cfg0 dsOn (.str "fan") rfl).2.1 rfl rfl rfl

/-- C5 counterexample: starting from the freshly constructed state (which
satisfies the membership invariant), the mode handler applied to the
non-sentinel string "bogus" — not a member of `available_modes` — copies
it verbatim and breaks the invariant. -/
theorem C5_mode_handler_breaks_invariant :
    modeMemberInv (initialState cfg0) = true
  ∧ modeMemberInv (update_mode (initialState cfg0) (.str "bogus")).1 = false := by
  refine ⟨rfl, rfl⟩

/-- C5 (amended): `_update_mode` copies any non-sentinel value verbatim
with no membership validation, so it preserves the invariant only when
the value is a string already in `available_modes`; `_update_mode_list`
applied to a non-empty list (re)establishes the invariant by resetting
the mode to the list's first element. -/
theorem C5_mode_membership (s : DeviceState) (m : String) (xs : List String)
    (ha : s.availableModes = some (.list xs)) (hm : m ∈ xs)
    (hinv : modeMemberInv s = true) :
    modeMemberInv (update_mode s (.str m)).1 = true
  ∧ ∀ y ys, modeMemberInv (update_mode_list s (.list (y :: ys))).1 = true := by
  constructor
  · by_cases hs : isSentinel (RawValue.str m) = true
    · simpa [update_mode_fst, modeFn, hs] using hinv
    · by_cases hsup : s.supportedModes = true
      · simp [update_mode_fst, modeFn, hs, modeMemberInv, ha, hsup]
        exact hm
      · simp [update_mode_fst, modeFn, hs, modeMemberInv, hsup]
  · intro y ys
    simp [update_mode_list_fst, mlSuppFn, mlAvailFn, mlModeFn, isSentinel, modeMemberInv]

/-- C5 witness: setting mode "away", which is in the initial mode list,
preserves the membership invariant. -/
theorem C5_mode_membership_witness :
    modeMemberInv (update_mode (initialState cfg0) (.str "away")).1 = true :=
  (C5_mode_membership (initialState cfg0) "away" ["auto", "away", "normal"]
    rfl (by decide) rfl).1

/-- C6 counterexample: `_update_mode` and `_update_mode_list` both write
`_attr_mode` (so their written attributes are not disjoint), and applying
them in the two orders to the same state yields different results. -/
theorem C6_mode_modeList_noncommuting :
    (update_mode ((update_mode_list (initialState cfg0) (.list ["a", "b"])).1)
        (.str "x")).1.mode = some (.str "x")
  ∧ (update_mode_list ((update_mode (initialState cfg0) (.str "x")).1)
        (.list ["a", "b"])).1.mode = some (.str "a")
  ∧ (update_mode (initialState cfg0) (.str "x")).1.mode ≠ (initialState cfg0).mode
  ∧ (update_mode_list (initialState cfg0) (.list ["a", "b"])).1.mode
      ≠ (initialState cfg0).mode := by
  refine ⟨rfl, rfl, by decide, by decide⟩

/-- C6 (amended): with two exceptions the handlers own disjoint attributes
and commute for all raw inputs and states; the exceptions are the
mode/mode-list pair (both write `_attr_mode`) and the state/action pair
(`_update_action` reads the `_state` attribute that `_update_state`
writes). -/
theorem C6_handler_commutation (cfg : Config) (h1 h2 : HandlerId)
    (hne : h1 ≠ h2) (hint : interferingPair h1 h2 = false)
    (v1 v2 : RawValue) (s : DeviceState) :
    applyHandler cfg h1 v1 (applyHandler cfg h2 v2 s)
      = applyHandler cfg h2 v2 (applyHandler cfg h1 v1 s) := by
  cases h1 <;> cases h2 <;>
    simp only [applyHandler] <;>
    first
      | exact absurd rfl hne
      | exact absurd hint (by decide)
      | exact comm_state_mode v2 v1 s
      | exact (comm_state_mode v1 v2 s).symm
      | exact comm_state_modeList v2 v1 s
      | exact (comm_state_modeList v1 v2 s).symm
      | exact comm_state_current v2 v1 s
      | exact (comm_state_current v1 v2 s).symm
      | exact comm_state_target v2 v1 s
      | exact (comm_state_target v1 v2 s).symm
      | exact comm_mode_current v2 v1 s
      | exact (comm_mode_current v1 v2 s).symm
      | exact comm_mode_target v2 v1 s
      | exact (comm_mode_target v1 v2 s).symm
      | exact comm_mode_action cfg v2 v1 s
      | exact (comm_mode_action cfg v1 v2 s).symm
      | exact comm_modeList_current v2 v1 s
      | exact (comm_modeList_current v1 v2 s).symm
      | exact comm_modeList_target v2 v1 s
      | exact (comm_modeList_target v1 v2 s).symm
      | exact comm_modeList_action cfg v2 v1 s
      | exact (comm_modeList_action cfg v1 v2 s).symm
      | exact comm_current_target v2 v1 s
      | exact (comm_current_target v1 v2 s).symm
      | exact comm_current_action cfg v2 v1 s
      | exact (comm_current_action cfg v1 v2 s).symm
      | exact comm_target_action cfg v2 v1 s
      | exact (comm_target_action cfg v1 v2 s).symm

/-- C6 witness: the state handler and the current-humidity handler
commute at a concrete pair of inputs. -/
theorem C6_handler_commutation_witness :
    applyHandler cfg0 .hstate .unknown
        (applyHandler cfg0 .hcurrent (.str "55") (initialState cfg0))
      = applyHandler cfg0 .hcurrent (.str "55")
          (applyHandler cfg0 .hstate .unknown (initialState cfg0)) :=
  C6_handler_commutation cfg0 .hstate .hcurrent (by decide) rfl
    .unknown (.str "55") (initialState cfg0)

/-- C7: `turn_on()` sets the power state to `True` before issuing the
downstream service call, so when a switch is configured and the awaited
call raises, `is_on` is already `True`, the exception propagates out
unchanged (nothing catches it), and the optimistic update — and nothing
else — is retained (no rollback). -/
theorem C7_turn_on_optimistic (cfg : Config) (s : DeviceState) (sid : String) (e : PyExc)
    (h : cfg.switchId = some sid) :
    is_on (async_turn_on_run cfg s (some e)).1 = .bool true
  ∧ (async_turn_on_run cfg s (some e)).2.2 = some e
  ∧ (async_turn_on_run cfg s (some e)).1 = { s with state := .bool true } := by
  simp [async_turn_on_run, is_on, h]

/-- C7 witness: a failing switch-domain call still leaves the entity on
and re-raises the same error. -/
theorem C7_turn_on_optimistic_witness :
    is_on (async_turn_on_run cfg0 (initialState cfg0) (some (PyExc.other "boom"))).1
      = .bool true :=
  (C7_turn_on_optimistic cfg0 (initialState cfg0) "switch.dryer"
    (PyExc.other "boom") rfl).1

/-- C8: `set_mode(mode)` performs the optimistic local mode update and the
immediate state publish iff no mode template is configured (with one
configured the command alone leaves the state untouched), and the
set-mode script runs iff one is configured, in both cases. -/
theorem C8_set_mode_optimism (cfg : Config) (s : DeviceState) (m : String) :
    (cfg.hasModeTemplate = false →
        (async_set_mode cfg s m).1.mode = some (.str m)
      ∧ Effect.publish ∈ (async_set_mode cfg s m).2)
  ∧ (cfg.hasModeTemplate = true →
        (async_set_mode cfg s m).1 = s
      ∧ Effect.publish ∉ (async_set_mode cfg s m).2)
  ∧ (Effect.runScript "set_mode" ∈ (async_set_mode cfg s m).2 ↔
        cfg.hasSetModeScript = true) := by
  cases hm : cfg.hasModeTemplate <;> cases hs : cfg.hasSetModeScript <;>
    simp [async_set_mode, hm, hs]

/-- C8 witness: with no mode template configured, `set_mode("away")`
immediately yields mode "away". -/
theorem C8_set_mode_optimism_witness :
    (async_set_mode cfg0 (initialState cfg0) "away").1.mode = some (.str "away") :=
  ((C8_set_mode_optimism cfg0 (initialState cfg0) "away").1 rfl).1

/-- C9 counterexample: `turn_on`, `turn_off` and `set_humidity` mutate
`is_on` / `target_humidity` but none of their effect traces contains the
state-publish step, refuting "every command-driven state mutation is
followed by a call to the platform state-publish step". -/
theorem C9_commands_do_not_publish :
    Effect.publish ∉ (async_turn_on_run cfg0 (initialState cfg0) none).2.1
  ∧ Effect.publish ∉ (async_turn_off_run cfg0 (initialState cfg0) none).2.1
  ∧ Effect.publish ∉ (async_set_humidity cfg0 (initialState cfg0) 55).2
  ∧ (async_turn_on_run cfg0 (initialState cfg0) none).1.state = .bool true
  ∧ (async_set_humidity cfg0 (initialState cfg0) 55).1.targetHumidity = 55 := by
  refine ⟨by decide, by decide, by decide, rfl, rfl⟩

/-- C9 (amended): among the command handlers only `set_mode`, and only
when no mode template is configured, calls the state-publish step;
`turn_on`, `turn_off` and `set_humidity` never do, for any configuration,
state or input. -/
theorem C9_publish_only_in_set_mode (cfg : Config) (s : DeviceState)
    (e : Option PyExc) (hum : Int) (m : String) :
    Effect.publish ∉ (async_turn_on_run cfg s e).2.1
  ∧ Effect.publish ∉ (async_turn_off_run cfg s e).2.1
  ∧ Effect.publish ∉ (async_set_humidity cfg s hum).2
  ∧ (Effect.publish ∈ (async_set_mode cfg s m).2 ↔ cfg.hasModeTemplate = false) := by
  refine ⟨?_, ?_, ?_, ?_⟩
  · cases hc : cfg.switchId <;> simp [async_turn_on_run, hc]
  · cases hc : cfg.switchId <;> simp [async_turn_off_run, hc]
  · cases hsc : cfg.hasSetTargetHumidityScript <;> simp [async_set_humidity, hsc]
  · cases hm : cfg.hasModeTemplate <;> cases hsc : cfg.hasSetModeScript <;>
      simp [async_set_mode, hm, hsc]

/-- C10: restoration assigns the persisted state string to `_state`
verbatim, without parsing it into a boolean: restoring a snapshot whose
state string is "off" makes `is_on` return the string "off" itself — a
truthy, non-boolean value — rather than `False`. -/
theorem C10_restore_state_verbatim (s : DeviceState) (p : Snapshot)
    (hp : p.state = "off") :
    is_on (restore s (some p)) = .str "off"
  ∧ truthy (is_on (restore s (some p))) = true
  ∧ ∀ b : Bool, is_on (restore s (some p)) ≠ .bool b := by
  have h1 : is_on (restore s (some p)) = .str "off" := by
    simp only [is_on, restore_state_eq, hp]
  refine ⟨h1, ?_, ?_⟩
  · rw [h1]
    rfl
  · intro b
    rw [h1]
    exact fun hcontra => PowerState.noConfusion hcontra

/-- C10 witness: concrete restoration of a snapshot persisted as "off". -/
theorem C10_restore_state_verbatim_witness :
    is_on (restore (initialState cfg0) (some snap65)) = .str "off" :=
  (C10_restore_state_verbatim (initialState cfg0) snap65 rfl).1

end HumidifierTemplate
